import Mathlib

/-!
Verification development for the odbc-api execution core.

The definitions below shallowly embed the Rust sources:

* `src/odbc-api/src/execute.rs` — `execute_with_parameters`, `execute`,
  `execute_columns`, `execute_tables`;
* `src/odbc-api/src/handles/statement.rs` — the `Statement` trait methods
  `exec_direct`, `execute`, `param_data`, `put_binary_batch`,
  `num_result_cols`, `numeric_col_attribute`, `is_unsigned_column`,
  `col_name`, `describe_col`.

The ODBC driver is modelled as a script of responses: each foreign call
consumes a scripted response and is recorded in a trace of `Call`s, so
properties about the observed driver call sequence can be stated as
equalities on traces.  Rust panics (`panic!`, failing `try_into().unwrap()`,
overflowing allocation requests) are modelled as an explicit `panicked`
outcome.  Arithmetic performed by the Rust code on `i16` values is modelled
on `Int` with explicit wrapping (`wrap16`, release-mode semantics), and
`/` on those values uses `Int.tdiv` (truncation towards zero, as in Rust).
-/

/-- Subset of `odbc_sys::SqlReturn` codes relevant to the embedded
functions.  Every scripted driver response carries one of these. -/
inductive SqlReturn where
  | success
  | successWithInfo
  | error
  | noData
  | needData
deriving DecidableEq, Repr

/-- Modelled from the spec: the four-way outcome shape (`ok` / `error` /
`no-data` / `need-data`) used throughout instead of a plain boolean/error
split.  The Rust `SqlResult` type lives in `handles/sql_result.rs`, which is
not among the given sources; this follows §3 of the spec ("Outcome<T>: one
of Success(T), Error(cause), NoData, NeedData"), with the error cause being
the name of the failing driver function. -/
inductive SqlResult (α : Type) where
  | Success (val : α)
  | Error (function : String)
  | NoData
  | NeedData
deriving DecidableEq, Repr

/-- Modelled from the spec: classification of a raw driver return code into
the outcome shape, tagged with the failing operation's name (spec §7: a
`DriverError` "carries the failing operation's name"). `SUCCESS_WITH_INFO`
is a success. -/
def into_sql_result (function : String) : SqlReturn → SqlResult Unit
  | .success => .Success ()
  | .successWithInfo => .Success ()
  | .error => .Error function
  | .noData => .NoData
  | .needData => .NeedData

/-- `SqlResult::on_success`: replace the value of a successful outcome,
keep every other outcome. -/
def SqlResult.on_success {α : Type} (r : SqlResult Unit) (f : Unit → α) : SqlResult α :=
  match r with
  | .Success u => .Success (f u)
  | .Error fn => .Error fn
  | .NoData => .NoData
  | .NeedData => .NeedData

/-- `SqlResult::is_err`: only the `Error` variant counts as an error
(`no-data` and `need-data` are protocol branches, spec §7). -/
def SqlResult.is_err {α : Type} : SqlResult α → Bool
  | .Error _ => true
  | _ => false

/-- Error taxonomy of spec §7 (the Rust `Error` enum is declared outside the
given sources; constructors follow the source usages `Error::FailedReadingInput`
in execute.rs and the spec's `DriverError`). -/
inductive Error where
  | DriverError (function : String)
  | FailedReadingInput (cause : String)
  | UnexpectedProtocolBranch
deriving DecidableEq, Repr

/-- Modelled from the spec: `into_result`, the conversion from the outcome
shape into `Result` used by the coordinator (`.into_result(stmt)?` in
execute.rs).  A `Success` passes through, an `Error` aborts tagged with the
failing operation; the coordinator never applies it to a `NoData`/`NeedData`
value (those are pre-matched by the callers), so those map to a reserved
error constructor. -/
def into_result {α : Type} : SqlResult α → Except Error α
  | .Success a => .ok a
  | .Error fn => .error (.DriverError fn)
  | .NoData => .error .UnexpectedProtocolBranch
  | .NeedData => .error .UnexpectedProtocolBranch

/-- One pull from a `Blob` batch source: either a byte batch or a host-side
I/O failure (`next_batch` returning `Err`).  A blob is a finite list of
pulls; once the list is exhausted `next_batch` reports `None`. -/
inductive BlobPull where
  | batch (bytes : List Nat)
  | ioError (cause : String)
deriving DecidableEq, Repr

/-- A `Blob`: lazy, finite, forward-only sequence of byte batches. -/
abbrev Blob := List BlobPull

/-- `CursorImpl<S>`: a statement handle wrapped after the open-result-set
state has been confirmed.  Statement handles are modelled as `Nat`. -/
structure CursorImpl where
  stmt : Nat
deriving DecidableEq, Repr

/-- One observable driver / host call made by the coordinator.  `paramData`
records the response (the delayed-parameter identity, or `none` once all
delayed parameters are fed). -/
inductive Call where
  | resetParams
  | setParamsetSize (n : Nat)
  | bindParams
  | execDirect
  | executeStmt
  | paramData (resp : Option Nat)
  | putData (batch : List Nat)
  | numResultCols
  | columnsCall
  | tablesCall
deriving DecidableEq, Repr

/-- Result of a coordinator call: success carrying an optional cursor,
an `Error`, or a Rust panic. -/
inductive Outc where
  | ok (res : Option CursorImpl)
  | err (e : Error)
  | panicked (msg : String)
deriving DecidableEq, Repr

/-- An abortive outcome of the streaming loop (never a success). -/
inductive Abort where
  | err (e : Error)
  | panicked (msg : String)
deriving DecidableEq, Repr

/-- Embed an abort into the coordinator outcome. -/
def Abort.toOutc : Abort → Outc
  | .err e => .err e
  | .panicked m => .panicked m

namespace Statement

/-- `Statement::exec_direct` (statement.rs): `NEED_DATA` means additional
data from delayed parameters is required; `NO_DATA` (a searched UPDATE or
DELETE affecting zero rows) is a success, not an error; everything else is
classified by `into_sql_result`. -/
def exec_direct (ret : SqlReturn) : SqlResult Bool :=
  match ret with
  | .needData => .Success true
  | .noData => .Success false
  | other => (into_sql_result "SQLExecDirectW" other).on_success fun _ => false

/-- `Statement::execute` (statement.rs): same outcome shape as
`exec_direct`, for a previously prepared statement. -/
def execute (ret : SqlReturn) : SqlResult Bool :=
  match ret with
  | .needData => .Success true
  | .noData => .Success false
  | other => (into_sql_result "SQLExecute" other).on_success fun _ => false

/-- `Statement::param_data` (statement.rs): `NEED_DATA` yields the next
delayed-parameter identity (the pointer passed at binding time, modelled as
a `Nat` index), anything else yields `None` on success. -/
def param_data (ret : SqlReturn) (id : Nat) : SqlResult (Option Nat) :=
  match ret with
  | .needData => .Success (some id)
  | other => (into_sql_result "SQLParamData" other).on_success fun _ => none

/-- `Statement::put_binary_batch` (statement.rs): panics on an empty batch
*before* any driver call (`Except.error` is the panic); otherwise sends the
batch, where `NEED_DATA` maps to `Success true`. -/
def put_binary_batch (ret : SqlReturn) (batch : List Nat) :
    Except String (SqlResult Bool) :=
  if batch = [] then
    .error "Attempt to put empty batch into data source."
  else
    .ok (match ret with
      | .needData => .Success true
      | other => (into_sql_result "SQLPutData" other).on_success fun _ => false)

/-- `Statement::num_result_cols` (statement.rs): classify the return code
and report the driver-written column count on success. -/
def num_result_cols (ret : SqlReturn) (out : Int) : SqlResult Int :=
  (into_sql_result "SQLNumResultCols" ret).on_success fun _ => out

/-- `Statement::numeric_col_attribute` (statement.rs): a single fixed-width
integer read; classify the return code, report the driver-written value. -/
def numeric_col_attribute (ret : SqlReturn) (out : Int) : SqlResult Int :=
  (into_sql_result "SQLColAttributeW" ret).on_success fun _ => out

/-- `Statement::is_unsigned_column` (statement.rs): maps the driver value
`0` to `false` and `1` to `true`; any other value panics
(`Except.error` models the Rust `panic!`). Non-success driver outcomes pass
through untouched (`SqlResult::map`). -/
def is_unsigned_column (ret : SqlReturn) (out : Int) :
    Except String (SqlResult Bool) :=
  match numeric_col_attribute ret out with
  | .Success n =>
      if n = 0 then .ok (.Success false)
      else if n = 1 then .ok (.Success true)
      else .error "Unsigned column attribute must be either 0 or 1."
  | .Error fn => .ok (.Error fn)
  | .NoData => .ok .NoData
  | .NeedData => .ok .NeedData

end Statement

/-- Inner loop of the delayed-parameter streaming loop (execute.rs lines
76–78): pull batches from the current blob and send each one with
`put_binary_batch` until the blob is exhausted.  `puts` scripts the driver's
responses to the put calls (exhausted script defaults to `success`).
Returns the trace of calls issued while draining, the remaining put script,
and the abort, if any:  a pull failure aborts with
`Error::FailedReadingInput`, an empty batch aborts with the
`put_binary_batch` panic before any driver call. -/
def drainBlob : Blob → List SqlReturn → List Call × List SqlReturn × Option Abort
  | [], puts => ([], puts, none)
  | .ioError e :: _, puts => ([], puts, some (.err (.FailedReadingInput e)))
  | .batch b :: rest, puts =>
    match Statement.put_binary_batch (puts.headD .success) b with
    | .error msg => ([], puts, some (.panicked msg))
    | .ok r =>
      match into_result r with
      | .error e => ([Call.putData b], puts.tail, some (.err e))
      | .ok _ =>
        let next := drainBlob rest puts.tail
        (Call.putData b :: next.1, next.2.1, next.2.2)

/-- Outer loop of the delayed-parameter streaming loop (execute.rs lines
71–79): ask the driver for the next delayed-parameter identity
(`param_data`), resolve it to the bound blob and drain that blob fully
before asking again.  `script` holds the scripted `SQLParamData` responses
(an exhausted script defaults to success, i.e. no further delayed
parameters); `blobs` are the bound blobs, indexed by identity. -/
def streamLoop : List (SqlReturn × Nat) → List Blob → List SqlReturn →
    List Call × Option Abort
  | [], _, _ => ([Call.paramData none], none)
  | (ret, id) :: restScript, blobs, puts =>
    match into_result (Statement.param_data ret id) with
    | .error e => ([Call.paramData none], some (.err e))
    | .ok none => ([Call.paramData none], none)
    | .ok (some i) =>
      let drained := drainBlob (blobs.getD i []) puts
      match drained.2.2 with
      | some a => (Call.paramData (some i) :: drained.1, some a)
      | none =>
        let next := streamLoop restScript blobs drained.2.1
        (Call.paramData (some i) :: (drained.1 ++ next.1), next.2)

/-- Scripted driver responses for one coordinator call. -/
structure Drv where
  resetRet : SqlReturn
  setSizeRet : SqlReturn
  execRet : SqlReturn
  paramScript : List (SqlReturn × Nat)
  blobs : List Blob
  putScript : List SqlReturn
  numRet : SqlReturn
  numOut : Int
deriving DecidableEq, Repr

/-- `execute` (execute.rs lines 54–90): dispatch direct text execution
(`exec_direct`) when query text is supplied and prepared execution
(`execute`) otherwise; on `need-data` run the delayed-parameter streaming
loop to completion; finally query the result-column count — `0` yields
`Success(None)`, anything else wraps the same statement handle as a
cursor. -/
def execute (stmt : Nat) (query : Option Unit) (d : Drv) : List Call × Outc :=
  let execCall := match query with
    | some _ => Call.execDirect
    | none => Call.executeStmt
  let needRes := match query with
    | some _ => Statement.exec_direct d.execRet
    | none => Statement.execute d.execRet
  match into_result needRes with
  | .error e => ([execCall], .err e)
  | .ok needData =>
    let streamed := if needData then streamLoop d.paramScript d.blobs d.putScript
      else ([], none)
    match streamed.2 with
    | some a => (execCall :: streamed.1, a.toOutc)
    | none =>
      match into_result (Statement.num_result_cols d.numRet d.numOut) with
      | .error e => (execCall :: streamed.1 ++ [Call.numResultCols], .err e)
      | .ok n =>
        (execCall :: streamed.1 ++ [Call.numResultCols],
         if n = 0 then .ok none else .ok (some ⟨stmt⟩))

/-- `execute_with_parameters` (execute.rs lines 21–47).  The first returned
component records whether the `lazy_statement` closure was invoked; the
second is the driver call trace; the third the outcome.  With parameter-set
cardinality `0` the function returns `Success(None)` immediately, invoking
nothing.  Otherwise the statement is acquired, previously bound parameters
are reset, the cardinality is set, the collection's buffers are bound
(`bindRes` is the outcome of `params.bind_parameters_to`, an external
capability), and execution is dispatched. -/
def execute_with_parameters (lazyStmt : Except Error Nat) (query : Option Unit)
    (parameter_set_size : Nat) (bindRes : Except Error Unit) (d : Drv) :
    Bool × List Call × Outc :=
  if parameter_set_size = 0 then (false, [], .ok none)
  else
    match lazyStmt with
    | .error e => (true, [], .err e)
    | .ok stmt =>
      match into_result (into_sql_result "SQLFreeStmt" d.resetRet) with
      | .error e => (true, [Call.resetParams], .err e)
      | .ok _ =>
        match into_result (into_sql_result "SQLSetStmtAttrW" d.setSizeRet) with
        | .error e =>
          (true, [Call.resetParams, Call.setParamsetSize parameter_set_size], .err e)
        | .ok _ =>
          match bindRes with
          | .error e =>
            (true, [Call.resetParams, Call.setParamsetSize parameter_set_size,
                    Call.bindParams], .err e)
          | .ok _ =>
            let r := execute stmt query d
            (true, Call.resetParams :: Call.setParamsetSize parameter_set_size ::
                   Call.bindParams :: r.1, r.2)

/-- `execute_columns` (execute.rs lines 94–115): issue the `columns`
metadata query; on success the statement is unconditionally wrapped as a
cursor.  The result-column count is only `debug_assert!`ed to be nonzero:
`dbg = true` models a debug build (the assertion runs — a violation is an
uncontrolled panic, never a recoverable error), `dbg = false` a release
build (the assertion is compiled out). -/
def execute_columns (dbg : Bool) (stmt : Nat) (colsRet : SqlReturn)
    (numRet : SqlReturn) (numOut : Int) : List Call × Outc :=
  match into_result (into_sql_result "SQLColumnsW" colsRet) with
  | .error e => ([Call.columnsCall], .err e)
  | .ok _ =>
    if dbg then
      match Statement.num_result_cols numRet numOut with
      | .Success n =>
        if n = 0 then
          ([Call.columnsCall, Call.numResultCols], .panicked "debug assertion failed")
        else ([Call.columnsCall, Call.numResultCols], .ok (some ⟨stmt⟩))
      | _ => ([Call.columnsCall, Call.numResultCols], .panicked "called unwrap on Error")
    else ([Call.columnsCall], .ok (some ⟨stmt⟩))

/-- `execute_tables` (execute.rs lines 119–141): identical shape to
`execute_columns` with the `tables` metadata query. -/
def execute_tables (dbg : Bool) (stmt : Nat) (tablesRet : SqlReturn)
    (numRet : SqlReturn) (numOut : Int) : List Call × Outc :=
  match into_result (into_sql_result "SQLTablesW" tablesRet) with
  | .error e => ([Call.tablesCall], .err e)
  | .ok _ =>
    if dbg then
      match Statement.num_result_cols numRet numOut with
      | .Success n =>
        if n = 0 then
          ([Call.tablesCall, Call.numResultCols], .panicked "debug assertion failed")
        else ([Call.tablesCall, Call.numResultCols], .ok (some ⟨stmt⟩))
      | _ => ([Call.tablesCall, Call.numResultCols], .panicked "called unwrap on Error")
    else ([Call.tablesCall], .ok (some ⟨stmt⟩))

/-- Modelled from the spec: `clamp_small_int` (handles/buffer.rs, not among
the given sources) clamps a buffer length (`usize`) into the `i16` range
used by ODBC length arguments. -/
def clamp_small_int (n : Nat) : Int :=
  min (n : Int) 32767

/-- Wrapping of an integer into the `i16` range, the release-mode semantics
of Rust `i16` arithmetic. -/
def wrap16 (x : Int) : Int :=
  (x + 32768) % 65536 - 32768

/-- A scripted response to one variable-length metadata fill call
(`SQLColAttributeW` / `SQLDescribeColW`): the return code and the length
value the driver writes (an `i16`; for `col_name` a byte count, for
`describe_col` a character count). -/
structure FillResp where
  ret : SqlReturn
  reported : Int
deriving DecidableEq, Repr

/-- Final state of a metadata read: the classified driver outcome, a Rust
panic, or (for the recursive `describe_col` only) an exhausted response
script. -/
inductive RunOut where
  | ret (res : SqlResult Unit)
  | panicked (msg : String)
  | noResp
deriving DecidableEq, Repr

/-- Observable result of a metadata read: number of fill calls issued, the
final buffer length and capacity (`Vec` lengths in `u16` elements), and the
outcome.  `Vec::resize n` sets the length to `n` and grows the capacity to
at least `n`; the model uses exactly `max cap n`. -/
structure RunResult where
  calls : Nat
  len : Nat
  cap : Nat
  out : RunOut
deriving DecidableEq, Repr

namespace Statement

/-- Final buffer trim shared by both exits of `col_name`:
`buf.resize(((string_length_in_bytes + 1) / 2).try_into().unwrap(), 0)` —
`i16` addition, `i16` truncating division, and a `usize` conversion that
panics on a negative value. -/
def colNameTrim (calls len cap : Nat) (res : SqlResult Unit) (L : Int) :
    RunResult :=
  let t := Int.tdiv (wrap16 (L + 1)) 2
  if t < 0 then ⟨calls, len, cap, .panicked "try_into"⟩
  else ⟨calls, t.toNat, cap, .ret res⟩

/-- `Statement::col_name` (statement.rs lines 521–565).  `cap0` is the
capacity of the caller's buffer (in `u16` elements), `drv i` the scripted
response to the `i`-th fill call.  Faithful to the source: the buffer is
resized to its full capacity; the buffer-length argument
`(buf.len() * 2).try_into::<i16>().unwrap()` panics when out of range; an
errored first call returns early without trimming; the retry is taken when
`clamp_small_int(buf.len() * 2) < string_length_in_bytes + 2`, growing the
buffer to `string_length_in_bytes + 1` elements (no division by two, to
tolerate drivers reporting characters instead of bytes); the final trim
uses the last reported length. -/
def col_name (cap0 : Nat) (drv : Nat → FillResp) : RunResult :=
  let len0 := cap0
  if (len0 * 2 : Int) > 32767 then ⟨0, len0, cap0, .panicked "try_into"⟩
  else
    let r1 := drv 0
    let res1 := into_sql_result "SQLColAttributeW" r1.ret
    let L1 := r1.reported
    if res1.is_err then ⟨1, len0, cap0, .ret res1⟩
    else if clamp_small_int (len0 * 2) < wrap16 (L1 + 2) then
      if wrap16 (L1 + 1) < 0 then ⟨1, len0, cap0, .panicked "try_into"⟩
      else
        let len1 := (wrap16 (L1 + 1)).toNat
        let cap1 := max cap0 len1
        if (len1 * 2 : Int) > 32767 then ⟨1, len1, cap1, .panicked "try_into"⟩
        else
          let r2 := drv 1
          colNameTrim 2 len1 cap1 (into_sql_result "SQLColAttributeW" r2.ret)
            r2.reported
    else colNameTrim 1 len0 cap0 res1 L1

/-- `Statement::describe_col` (statement.rs lines 169–213), restricted to
the name buffer it retries on.  One scripted response is consumed per
(recursive) invocation; the buffer is resized to its capacity, the
buffer-length argument is `clamp_small_int(name.len())`, and when
`name_length + 1 > clamp_small_int(name.len())` the buffer is grown to
`name_length + 1` elements and the call retries recursively.  Rust's
`name_length as usize` sign-extends a negative `i16` into an astronomically
large allocation request, modelled as a panic. -/
def describe_col : List FillResp → Nat → RunResult
  | [], cap => ⟨0, cap, cap, .noResp⟩
  | r :: rest, cap =>
    let len := cap
    let res := into_sql_result "SQLDescribeColW" r.ret
    let L := r.reported
    if res.is_err then ⟨1, len, cap, .ret res⟩
    else if clamp_small_int len < wrap16 (L + 1) then
      if L < 0 then ⟨1, len, cap, .panicked "capacity overflow"⟩
      else
        let cap' := max cap (L.toNat + 1)
        let inner := describe_col rest cap'
        ⟨inner.calls + 1, inner.len, inner.cap, inner.out⟩
    else
      if L < 0 then ⟨1, len, cap, .panicked "capacity overflow"⟩
      else ⟨1, L.toNat, cap, .ret res⟩

end Statement

/-! ## Helper lemmas -/

/-- `wrap16` is the identity on values already in the `i16` range. -/
theorem wrap16_eq (x : Int) (h1 : -32768 ≤ x) (h2 : x ≤ 32767) : wrap16 x = x := by
  unfold wrap16
  have h : (x + 32768) % 65536 = x + 32768 := Int.emod_eq_of_lt (by omega) (by omega)
  omega

/-- `clamp_small_int` is the identity below the clamp. -/
theorem clamp_small_int_eq (n : Nat) (h : n ≤ 32767) :
    clamp_small_int n = (n : Int) := by
  simp only [clamp_small_int, min_eq_left_iff]
  exact_mod_cast h

/-- The trace of draining one blob contains no `param_data` call: the next
delayed identity cannot be requested from inside the inner loop. -/
theorem drainBlob_no_paramData (blob : Blob) (puts : List SqlReturn)
    (r : Option Nat) : Call.paramData r ∉ (drainBlob blob puts).1 := by
  induction blob generalizing puts with
  | nil => simp [drainBlob]
  | cons p rest ih =>
    cases p with
    | ioError e => simp [drainBlob]
    | batch b =>
      simp only [drainBlob]
      cases hpb : Statement.put_binary_batch (puts.headD .success) b with
      | error msg => simp only [hpb]; simp
      | ok pr =>
        cases hir : into_result pr with
        | error e => simp only [hpb, hir]; simp
        | ok u =>
          simp only [hpb, hir, List.mem_cons]
          rintro (h | h)
          · exact Call.noConfusion h
          · exact ih puts.tail h

/-- The trace of draining a blob never contains a `put-data` call with an
empty batch: `put_binary_batch` panics before issuing the call. -/
theorem drainBlob_no_empty_put (blob : Blob) (puts : List SqlReturn) :
    Call.putData [] ∉ (drainBlob blob puts).1 := by
  induction blob generalizing puts with
  | nil => simp [drainBlob]
  | cons p rest ih =>
    cases p with
    | ioError e => simp [drainBlob]
    | batch b =>
      by_cases hb : b = []
      · simp [drainBlob, Statement.put_binary_batch, hb]
      · simp only [drainBlob]
        cases hpb : Statement.put_binary_batch (puts.headD .success) b with
        | error msg =>
          exact absurd hpb (by simp [Statement.put_binary_batch, hb])
        | ok pr =>
          cases hir : into_result pr with
          | error e => simp only [hpb, hir]; simp [Ne.symm hb]
          | ok u =>
            simp only [hpb, hir, List.mem_cons]
            rintro (h | h)
            · exact hb (Call.putData.inj h).symm
            · exact ih puts.tail h

/-- Draining a prefix of successful, non-empty batches with an all-success
put script sends exactly those batches and continues with the rest. -/
theorem drainBlob_batches (batches : List (List Nat))
    (hb : ∀ x ∈ batches, x ≠ []) (rest : Blob) :
    drainBlob (batches.map BlobPull.batch ++ rest) [] =
      (batches.map Call.putData ++ (drainBlob rest []).1,
       (drainBlob rest []).2.1, (drainBlob rest []).2.2) := by
  induction batches with
  | nil => simp
  | cons b bs ih =>
    have hbne : b ≠ [] := hb b (by simp)
    have ih' := ih (fun x hx => hb x (by simp [hx]))
    simp [drainBlob, Statement.put_binary_batch, hbne, into_sql_result,
      SqlResult.on_success, into_result, ih']

/-- If draining the blob bound to identity `i` aborts, the streaming loop
aborts with that abort right away: nothing from the remaining script is
processed. -/
theorem streamLoop_abort (i : Nat) (restScript : List (SqlReturn × Nat))
    (blobs : List Blob) (puts : List SqlReturn) (a : Abort)
    (h : (drainBlob (blobs.getD i []) puts).2.2 = some a) :
    streamLoop ((.needData, i) :: restScript) blobs puts =
      (Call.paramData (some i) :: (drainBlob (blobs.getD i []) puts).1,
       some a) := by
  rcases hd : drainBlob (blobs.getD i []) puts with ⟨tr, pp, ab⟩
  have hab : ab = some a := by rw [hd] at h; exact h
  simp only [streamLoop, Statement.param_data, into_result, hd, hab]

/-- If the classified `num_result_cols` outcome is a success, the value is
the driver-written count. -/
theorem num_result_cols_ok_val (nr : SqlReturn) (no n : Int)
    (h : into_result (Statement.num_result_cols nr no) = .ok n) : n = no := by
  cases nr <;>
    simp [Statement.num_result_cols, into_sql_result, SqlResult.on_success,
      into_result] at h <;> omega

/-- A successful cursor-producing outcome of `execute` implies the driver
reported a nonzero result-column count, and the cursor wraps the same
statement handle: the cursor is constructed only in the branch where the
count has been confirmed nonzero. -/
theorem execute_ok_some_aux (d : Drv) (st : Nat) (q : Option Unit)
    (c : CursorImpl) (h : (execute st q d).2 = .ok (some c)) :
    d.numOut ≠ 0 ∧ c = ⟨st⟩ := by
  obtain ⟨rr, sr, er, ps, bl, pt, nr, no⟩ := d
  show no ≠ 0 ∧ c = ⟨st⟩
  cases q <;> simp only [execute] at h <;> split at h <;>
  first
  | (split at h
     · rename_i a heq
       cases a <;> exact absurd h (by simp [Abort.toOutc])
     · split at h
       · exact absurd h (by simp)
       · rename_i n heq2
         by_cases hno : n = 0
         · rw [if_pos hno] at h
           exact absurd h (by simp)
         · rw [if_neg hno] at h
           have hn := num_result_cols_ok_val nr no n heq2
           subst hn
           exact ⟨hno, by simpa using h.symm⟩)
  | exact absurd h (by simp)

/-! ## Claim theorems -/

/-- C1: for every parameter collection whose cardinality
(`parameter_set_size`) is 0, `execute_with_parameters` returns
`Success(None)`, the statement-acquisition closure is never invoked
(first component `false`), and no driver call is issued — regardless of
whether query text is supplied. -/
theorem execute_with_parameters_zero_cardinality (lazyStmt : Except Error Nat)
    (query : Option Unit) (bindRes : Except Error Unit) (d : Drv) :
    execute_with_parameters lazyStmt query 0 bindRes d =
      (false, [], .ok none) := rfl

/-- C2: in the delayed-parameter streaming loop, for delayed identities
`[P1, P2]` with batches `P1 → [a, b]`, `P2 → [c]`, the observed driver call
sequence is exactly `ask→P1, put(a), put(b), ask→P2, put(c), ask→none`
(the head is the request that returned the given first identity `P1`; the
rest is the claimed sequence); moreover `param_data` is never called from
inside the inner drain loop, so the next identity is never requested before
the current identity's batches are exhausted. -/
theorem streaming_drains_blob_before_next_identity (a b c : List Nat)
    (ha : a ≠ []) (hb : b ≠ []) (hc : c ≠ []) :
    streamLoop [(.needData, 0), (.needData, 1)]
        [[.batch a, .batch b], [.batch c]] [] =
      ([Call.paramData (some 0), Call.putData a, Call.putData b,
        Call.paramData (some 1), Call.putData c, Call.paramData none],
       none) ∧
    ∀ (blob : Blob) (puts : List SqlReturn) (r : Option Nat),
      Call.paramData r ∉ (drainBlob blob puts).1 := by
  refine ⟨?_, drainBlob_no_paramData⟩
  simp [streamLoop, drainBlob, Statement.param_data,
    Statement.put_binary_batch, into_sql_result, SqlResult.on_success,
    into_result, ha, hb, hc]

/-- C2 witness: the ordering property at concrete batches. -/
theorem streaming_drains_blob_before_next_identity_witness :
    (streamLoop [(.needData, 0), (.needData, 1)]
        [[.batch [1], .batch [2]], [.batch [3]]] [] =
      ([Call.paramData (some 0), Call.putData [1], Call.putData [2],
        Call.paramData (some 1), Call.putData [3], Call.paramData none],
       none)) ∧
    ∀ (blob : Blob) (puts : List SqlReturn) (r : Option Nat),
      Call.paramData r ∉ (drainBlob blob puts).1 :=
  streaming_drains_blob_before_next_identity [1] [2] [3]
    (by decide) (by decide) (by decide)

/-- C5: a blob yielding a zero-length batch makes the coordinator fail with
the empty-batch panic (the spec's `ProgrammingError`) before issuing any
`put-data` call for that batch — the trace stops at the batches already
sent, and (second conjunct) no trace of the inner loop ever contains an
empty `put-data` call. -/
theorem empty_batch_rejected_before_put (i : Nat) (batches : List (List Nat))
    (hb : ∀ x ∈ batches, x ≠ []) (post : Blob)
    (restScript : List (SqlReturn × Nat)) (blobs : List Blob)
    (hblob : blobs.getD i [] =
      batches.map BlobPull.batch ++ BlobPull.batch [] :: post) :
    streamLoop ((.needData, i) :: restScript) blobs [] =
      (Call.paramData (some i) :: batches.map Call.putData,
       some (.panicked "Attempt to put empty batch into data source.")) ∧
    ∀ (blob : Blob) (puts : List SqlReturn),
      Call.putData [] ∉ (drainBlob blob puts).1 := by
  refine ⟨?_, drainBlob_no_empty_put⟩
  have hpost : drainBlob (BlobPull.batch [] :: post) ([] : List SqlReturn) =
      ([], [], some (.panicked "Attempt to put empty batch into data source.")) := by
    simp [drainBlob, Statement.put_binary_batch]
  have hd := drainBlob_batches batches hb (BlobPull.batch [] :: post)
  rw [hpost] at hd
  rw [streamLoop_abort i restScript blobs [] _ (by rw [hblob, hd])]
  rw [hblob, hd]
  simp

/-- C5 witness: concrete instantiation with one good batch before the empty
one. -/
theorem empty_batch_rejected_before_put_witness :
    (streamLoop [(.needData, 0), (.needData, 1)]
        [[.batch [9], .batch []], [.batch [2]]] [] =
      (Call.paramData (some 0) :: [[9]].map Call.putData,
       some (.panicked "Attempt to put empty batch into data source."))) ∧
    ∀ (blob : Blob) (puts : List SqlReturn),
      Call.putData [] ∉ (drainBlob blob puts).1 :=
  empty_batch_rejected_before_put 0 [[9]] (by decide)
    [] [(.needData, 1)] [[.batch [9], .batch []], [.batch [2]]] rfl

/-- C6: a blob pull failure aborts the whole coordinator call with
`InputReadFailure` (`Error::FailedReadingInput`) carrying the underlying
cause; the batches already sent are the whole trace — no further batches
are sent and no further delayed identities are requested. -/
theorem blob_pull_failure_aborts_loop (i : Nat) (batches : List (List Nat))
    (hb : ∀ x ∈ batches, x ≠ []) (e : String) (post : Blob)
    (restScript : List (SqlReturn × Nat)) (blobs : List Blob)
    (hblob : blobs.getD i [] =
      batches.map BlobPull.batch ++ BlobPull.ioError e :: post) :
    streamLoop ((.needData, i) :: restScript) blobs [] =
      (Call.paramData (some i) :: batches.map Call.putData,
       some (.err (.FailedReadingInput e))) := by
  have hpost : drainBlob (BlobPull.ioError e :: post) ([] : List SqlReturn) =
      ([], [], some (.err (.FailedReadingInput e))) := by
    simp [drainBlob]
  have hd := drainBlob_batches batches hb (BlobPull.ioError e :: post)
  rw [hpost] at hd
  rw [streamLoop_abort i restScript blobs [] _ (by rw [hblob, hd])]
  rw [hblob, hd]
  simp

/-- C6 witness: a pull failure after one good batch, with a second identity
still scripted: the loop stops at the failure. -/
theorem blob_pull_failure_aborts_loop_witness :
    streamLoop [(.needData, 0), (.needData, 1)]
        [[.batch [7], .ioError "disk"], [.batch [2]]] [] =
      (Call.paramData (some 0) :: [[7]].map Call.putData,
       some (.err (.FailedReadingInput "disk"))) :=
  blob_pull_failure_aborts_loop 0 [[7]] (by decide) "disk"
    [] [(.needData, 1)] [[.batch [7], .ioError "disk"], [.batch [2]]] rfl

/-- C7: both execution forms (`exec_direct`, `execute`) report their
outcome in the same `{ok, need-data, no-data}` shape — `NEED_DATA` maps to
`Success true`, `NO_DATA` (zero rows affected) and `SUCCESS` map to
`Success false`, a driver error to `Error` — and a `no-data` outcome is
treated like `ok` by the coordinator: it proceeds to result determination
(`num_result_cols`) and returns a success. -/
theorem exec_forms_same_outcome_shape_no_data_is_success :
    (Statement.exec_direct .needData = .Success true ∧
     Statement.execute .needData = .Success true) ∧
    (Statement.exec_direct .noData = .Success false ∧
     Statement.execute .noData = .Success false) ∧
    (Statement.exec_direct .success = .Success false ∧
     Statement.execute .success = .Success false) ∧
    ((Statement.exec_direct .error).is_err = true ∧
     (Statement.execute .error).is_err = true) ∧
    ∀ (stmt : Nat) (n : Int) (ps : List (SqlReturn × Nat)) (bl : List Blob)
      (pt : List SqlReturn),
      execute stmt (some ()) ⟨.success, .success, .noData, ps, bl, pt, .success, n⟩ =
        ([Call.execDirect, Call.numResultCols],
         if n = 0 then .ok none else .ok (some ⟨stmt⟩)) ∧
      execute stmt none ⟨.success, .success, .noData, ps, bl, pt, .success, n⟩ =
        ([Call.executeStmt, Call.numResultCols],
         if n = 0 then .ok none else .ok (some ⟨stmt⟩)) :=
  ⟨⟨rfl, rfl⟩, ⟨rfl, rfl⟩, ⟨rfl, rfl⟩, ⟨rfl, rfl⟩,
   fun _ _ _ _ _ => ⟨rfl, rfl⟩⟩

/-- C8: the unsigned-flag accessor maps driver value 0 to `false`, 1 to
`true`, panics (fails loudly, `Except.error`) on every other integer, and
passes a driver error through without coercion. -/
theorem is_unsigned_column_strict_mapping (n : Int) (h0 : n ≠ 0) (h1 : n ≠ 1) :
    Statement.is_unsigned_column .success 0 = .ok (.Success false) ∧
    Statement.is_unsigned_column .success 1 = .ok (.Success true) ∧
    Statement.is_unsigned_column .success n =
      .error "Unsigned column attribute must be either 0 or 1." ∧
    Statement.is_unsigned_column .error n = .ok (.Error "SQLColAttributeW") := by
  refine ⟨rfl, rfl, ?_, rfl⟩
  simp [Statement.is_unsigned_column, Statement.numeric_col_attribute,
    into_sql_result, SqlResult.on_success, h0, h1]

/-- C8 witness: the strict mapping at driver value 5. -/
theorem is_unsigned_column_strict_mapping_witness :
    Statement.is_unsigned_column .success 0 = .ok (.Success false) ∧
    Statement.is_unsigned_column .success 1 = .ok (.Success true) ∧
    Statement.is_unsigned_column .success 5 =
      .error "Unsigned column attribute must be either 0 or 1." ∧
    Statement.is_unsigned_column .error 5 = .ok (.Error "SQLColAttributeW") :=
  is_unsigned_column_strict_mapping 5 (by decide) (by decide)

/-- C4: for every execution with cardinality > 0 in which all driver calls
succeed, a reported result-column count of 0 yields `Success(None)` (not an
error) and a nonzero count yields `Success(Some(cursor))` wrapping the same
statement handle; moreover (second conjunct, over arbitrary driver scripts)
a cursor outcome is only ever produced after the result-column count has
been confirmed nonzero, and it wraps the executed handle. -/
theorem execute_result_determination (k : Nat) (hk : 0 < k) (stmt : Nat)
    (q : Option Unit) (n : Int) :
    (execute_with_parameters (.ok stmt) q k (.ok ())
        ⟨.success, .success, .success, [], [], [], .success, n⟩).2.2 =
      (if n = 0 then Outc.ok none else Outc.ok (some ⟨stmt⟩)) ∧
    ∀ (d : Drv) (st : Nat) (q' : Option Unit) (c : CursorImpl),
      (execute st q' d).2 = .ok (some c) → d.numOut ≠ 0 ∧ c = ⟨st⟩ := by
  refine ⟨?_, fun d st q' c h => execute_ok_some_aux d st q' c h⟩
  have hk' : k ≠ 0 := Nat.pos_iff_ne_zero.mp hk
  cases q <;>
    simp [execute_with_parameters, hk', execute, Statement.exec_direct,
      Statement.execute, Statement.num_result_cols, into_sql_result,
      SqlResult.on_success, into_result]

/-- C4 witness: cardinality 1, three result columns. -/
theorem execute_result_determination_witness :
    ((execute_with_parameters (.ok 5) none 1 (.ok ())
        ⟨.success, .success, .success, [], [], [], .success, 3⟩).2.2 =
      (if (3 : Int) = 0 then Outc.ok none else Outc.ok (some ⟨5⟩))) ∧
    ((3 : Int) ≠ 0 ∧ (⟨5⟩ : CursorImpl) = ⟨5⟩) :=
  ⟨(execute_result_determination 1 Nat.one_pos 5 none 3).1,
   (execute_result_determination 1 Nat.one_pos 5 none 3).2
     ⟨.success, .success, .success, [], [], [], .success, 3⟩ 5 none ⟨5⟩
     (by decide)⟩

/-- C3 counterexample: at true length `L` equal to the initial capacity `C`
(here 4), the value fits in the buffer, yet both readers retry (two fill
calls, not one), because the buffer must additionally hold the terminating
zero — `describe_col` retries when `L + 1 > C`, `col_name` when
`2C < 2L + 2`.  This falsifies the claim's "if `L` fits in `C`, no retry
occurs". -/
theorem metadata_retry_boundary_counterexample :
    (Statement.describe_col [⟨.success, 4⟩, ⟨.success, 4⟩] 4).calls = 2 ∧
    (Statement.col_name 4 (fun _ => ⟨.success, 8⟩)).calls = 2 := by
  exact ⟨rfl, rfl⟩

/-- C3 (amended): for a conforming driver reporting the fixed true length
`L` (in characters; `col_name` reports `2L` bytes) with lengths and
capacities in the `i16` argument range: if `L ≥ C` exactly one retry
occurs, the retry buffer capacity is `max C (L+1) ≥ L` (for `col_name`
`max C (2L+1)`), and the final value length is exactly `L`; if `L < C`
(value plus terminator fit) no retry occurs and the final length is also
exactly `L`. -/
theorem metadata_retry_one_resize_exact_length (C L : Nat)
    (hC : C ≤ 16383) (hL : L ≤ 8191) :
    ((C ≤ L →
        Statement.describe_col [⟨.success, (L : Int)⟩, ⟨.success, (L : Int)⟩] C =
          ⟨2, L, max C (L + 1), .ret (.Success ())⟩) ∧
     (L < C →
        Statement.describe_col [⟨.success, (L : Int)⟩, ⟨.success, (L : Int)⟩] C =
          ⟨1, L, C, .ret (.Success ())⟩)) ∧
    ((C ≤ L →
        Statement.col_name C (fun _ => ⟨.success, (2 * L : Int)⟩) =
          ⟨2, L, max C (2 * L + 1), .ret (.Success ())⟩) ∧
     (L < C →
        Statement.col_name C (fun _ => ⟨.success, (2 * L : Int)⟩) =
          ⟨1, L, C, .ret (.Success ())⟩)) := by
  refine ⟨⟨fun hCL => ?_, fun hCL => ?_⟩, fun hCL => ?_, fun hCL => ?_⟩
  · have hc1 : clamp_small_int C = (C : Int) := clamp_small_int_eq C (by omega)
    have hw1 : wrap16 ((L : Int) + 1) = (L : Int) + 1 :=
      wrap16_eq _ (by omega) (by omega)
    have hcond1 : clamp_small_int C < wrap16 ((L : Int) + 1) := by
      rw [hc1, hw1]; omega
    have hc2 : clamp_small_int (max C (L + 1)) = ((max C (L + 1) : Nat) : Int) :=
      clamp_small_int_eq _ (by omega)
    have hcond2 : ¬ clamp_small_int (max C (L + 1)) < wrap16 ((L : Int) + 1) := by
      rw [hc2, hw1]; push_cast; omega
    have hnn : ¬ ((L : Int) < 0) := by omega
    simp [Statement.describe_col, into_sql_result, SqlResult.is_err,
      hcond1, hcond2, hnn]
  · have hc1 : clamp_small_int C = (C : Int) := clamp_small_int_eq C (by omega)
    have hw1 : wrap16 ((L : Int) + 1) = (L : Int) + 1 :=
      wrap16_eq _ (by omega) (by omega)
    have hcond1 : ¬ clamp_small_int C < wrap16 ((L : Int) + 1) := by
      rw [hc1, hw1]; omega
    have hnn : ¬ ((L : Int) < 0) := by omega
    simp [Statement.describe_col, into_sql_result, SqlResult.is_err,
      hcond1, hnn]
  · have hsz1 : ¬ ((C : Int) * 2 > 32767) := by omega
    have hcl : clamp_small_int (C * 2) = ((C * 2 : Nat) : Int) :=
      clamp_small_int_eq _ (by omega)
    have hw2 : wrap16 (2 * (L : Int) + 2) = 2 * (L : Int) + 2 :=
      wrap16_eq _ (by omega) (by omega)
    have hcond : clamp_small_int (C * 2) < wrap16 (2 * (L : Int) + 2) := by
      rw [hcl, hw2]; push_cast; omega
    have hw1 : wrap16 (2 * (L : Int) + 1) = 2 * (L : Int) + 1 :=
      wrap16_eq _ (by omega) (by omega)
    have hw1n : ¬ (wrap16 (2 * (L : Int) + 1) < 0) := by rw [hw1]; omega
    have htn : (wrap16 (2 * (L : Int) + 1)).toNat = 2 * L + 1 := by
      rw [hw1]; omega
    have htd : Int.tdiv (wrap16 (2 * (L : Int) + 1)) 2 = (L : Int) := by
      rw [hw1, Int.tdiv_eq_ediv (by omega) (by omega)]; omega
    have hf1 : ¬ (32767 < (2 * (L : Int) + 1) * 2) := by omega
    have hf2 : ¬ ((L : Int) < 0) := by omega
    simp [Statement.col_name, Statement.colNameTrim, into_sql_result,
      SqlResult.is_err, hsz1, hcond, hw1n, htn, htd, hf1, hf2]
  · have hsz1 : ¬ ((C : Int) * 2 > 32767) := by omega
    have hcl : clamp_small_int (C * 2) = ((C * 2 : Nat) : Int) :=
      clamp_small_int_eq _ (by omega)
    have hw2 : wrap16 (2 * (L : Int) + 2) = 2 * (L : Int) + 2 :=
      wrap16_eq _ (by omega) (by omega)
    have hcond : ¬ (clamp_small_int (C * 2) < wrap16 (2 * (L : Int) + 2)) := by
      rw [hcl, hw2]; push_cast; omega
    have hw1 : wrap16 (2 * (L : Int) + 1) = 2 * (L : Int) + 1 :=
      wrap16_eq _ (by omega) (by omega)
    have htd : Int.tdiv (wrap16 (2 * (L : Int) + 1)) 2 = (L : Int) := by
      rw [hw1, Int.tdiv_eq_ediv (by omega) (by omega)]; omega
    have hf2 : ¬ ((L : Int) < 0) := by omega
    simp [Statement.col_name, Statement.colNameTrim, into_sql_result,
      SqlResult.is_err, hsz1, hcond, htd, hf2]

/-- C3 witness: true length 5, initial capacity 2 (retry) and the same
bounds for the no-retry side. -/
theorem metadata_retry_one_resize_exact_length_witness :
    ((2 ≤ 5 →
        Statement.describe_col
            [⟨.success, ((5 : Nat) : Int)⟩, ⟨.success, ((5 : Nat) : Int)⟩] 2 =
          ⟨2, 5, max 2 (5 + 1), .ret (.Success ())⟩) ∧
     (5 < 2 →
        Statement.describe_col
            [⟨.success, ((5 : Nat) : Int)⟩, ⟨.success, ((5 : Nat) : Int)⟩] 2 =
          ⟨1, 5, 2, .ret (.Success ())⟩)) ∧
    ((2 ≤ 5 →
        Statement.col_name 2 (fun _ => ⟨.success, ((2 * 5 : Nat) : Int)⟩) =
          ⟨2, 5, max 2 (2 * 5 + 1), .ret (.Success ())⟩) ∧
     (5 < 2 →
        Statement.col_name 2 (fun _ => ⟨.success, ((2 * 5 : Nat) : Int)⟩) =
          ⟨1, 5, 2, .ret (.Success ())⟩)) :=
  metadata_retry_one_resize_exact_length 2 5 (by decide) (by decide)

/-- C10 counterexample: a driver reporting length `-3` with a success
return makes `col_name` panic at the final `usize` conversion
(`((-3 + 1) / 2).try_into().unwrap()` fails), so the buffer is not trimmed
to `(last reported byte length + 1) / 2` — falsifying the claim's
unconditional "always terminates, trimming the buffer". -/
theorem col_name_negative_reported_length_not_trimmed :
    Statement.col_name 4 (fun _ => ⟨.success, -3⟩) =
      ⟨1, 4, 4, .panicked "try_into"⟩ ∧
    (Statement.col_name 4 (fun _ => ⟨.success, -3⟩)).out ≠
      .ret (.Success ()) := by
  exact ⟨rfl, by decide⟩

/-- C10 (amended): `col_name` issues at most two fill calls for every
driver behavior (and always terminates — it is a total function).  For
successful fills with reported lengths `≥ -1` that keep the buffer-length
arguments within the `i16` range: when the retry condition
`2·capacity < reported₁ + 2` holds, exactly two fill calls are made, the
buffer is grown to `reported₁ + 1` elements, and the final buffer is
trimmed to `(reported₂ + 1) / 2` (truncating division) elements; otherwise
a single fill call is made and the buffer is trimmed to
`(reported₁ + 1) / 2` elements.  Out-of-range reported lengths instead
cause a panic, not a trim. -/
theorem col_name_bounded_calls_trim_growth (cap : Nat) (L1 L2 : Int)
    (hcap : cap ≤ 16383) (h1l : -1 ≤ L1) (h1u : L1 ≤ 16382)
    (h2l : -1 ≤ L2) (h2u : L2 ≤ 16382) :
    (∀ (c : Nat) (drv : Nat → FillResp), (Statement.col_name c drv).calls ≤ 2) ∧
    ((cap : Int) * 2 < L1 + 2 →
      Statement.col_name cap
          (fun i => if i = 0 then ⟨.success, L1⟩ else ⟨.success, L2⟩) =
        ⟨2, (Int.tdiv (L2 + 1) 2).toNat, max cap (L1 + 1).toNat,
         .ret (.Success ())⟩) ∧
    (L1 + 2 ≤ (cap : Int) * 2 →
      Statement.col_name cap
          (fun i => if i = 0 then ⟨.success, L1⟩ else ⟨.success, L2⟩) =
        ⟨1, (Int.tdiv (L1 + 1) 2).toNat, cap, .ret (.Success ())⟩) := by
  refine ⟨fun c drv => ?_, fun h => ?_, fun h => ?_⟩
  · simp only [Statement.col_name, Statement.colNameTrim]
    repeat' split
    all_goals simp
  · have hsz1 : ¬ ((cap : Int) * 2 > 32767) := by omega
    have hcl : clamp_small_int (cap * 2) = ((cap * 2 : Nat) : Int) :=
      clamp_small_int_eq _ (by omega)
    have hw2 : wrap16 (L1 + 2) = L1 + 2 := wrap16_eq _ (by omega) (by omega)
    have hcond : clamp_small_int (cap * 2) < wrap16 (L1 + 2) := by
      rw [hcl, hw2]; push_cast; omega
    have hw1 : wrap16 (L1 + 1) = L1 + 1 := wrap16_eq _ (by omega) (by omega)
    have hw1n : ¬ (wrap16 (L1 + 1) < 0) := by rw [hw1]; omega
    have hcast : (((L1 + 1).toNat : Nat) : Int) = L1 + 1 :=
      Int.toNat_of_nonneg (by omega)
    have hsz2 : ¬ (32767 < (((L1 + 1).toNat : Nat) : Int) * 2) := by
      rw [hcast]; omega
    have hw3 : wrap16 (L2 + 1) = L2 + 1 := wrap16_eq _ (by omega) (by omega)
    have htd2 : Int.tdiv (L2 + 1) 2 = (L2 + 1) / 2 :=
      Int.tdiv_eq_ediv (by omega) (by omega)
    have hnneg : ¬ ((L2 + 1) / 2 < 0) := by omega
    have hq1 : ¬ (L1 + 1 < 0) := by omega
    have hq2 : ¬ ((32767 : Int) < ((L1 + 1) ⊔ 0) * 2) := by
      rw [max_eq_left (by omega : (0 : Int) ≤ L1 + 1)]; omega
    simp [Statement.col_name, Statement.colNameTrim, into_sql_result,
      SqlResult.is_err, hsz1, hcond, hw1, hw1n, hsz2, hw3, htd2, hnneg,
      hq1, hq2]
  · have hsz1 : ¬ ((cap : Int) * 2 > 32767) := by omega
    have hcl : clamp_small_int (cap * 2) = ((cap * 2 : Nat) : Int) :=
      clamp_small_int_eq _ (by omega)
    have hw2 : wrap16 (L1 + 2) = L1 + 2 := wrap16_eq _ (by omega) (by omega)
    have hcond : ¬ (clamp_small_int (cap * 2) < wrap16 (L1 + 2)) := by
      rw [hcl, hw2]; push_cast; omega
    have hw1 : wrap16 (L1 + 1) = L1 + 1 := wrap16_eq _ (by omega) (by omega)
    have htd1 : Int.tdiv (L1 + 1) 2 = (L1 + 1) / 2 :=
      Int.tdiv_eq_ediv (by omega) (by omega)
    have hnneg : ¬ ((L1 + 1) / 2 < 0) := by omega
    simp [Statement.col_name, Statement.colNameTrim, into_sql_result,
      SqlResult.is_err, hsz1, hcond, hw1, htd1, hnneg]

/-- C10 witness: capacity 3, first report 9, second report 7 — the retry
branch at concrete values. -/
theorem col_name_bounded_calls_trim_growth_witness :
    (∀ (c : Nat) (drv : Nat → FillResp), (Statement.col_name c drv).calls ≤ 2) ∧
    (((3 : Nat) : Int) * 2 < 9 + 2 →
      Statement.col_name 3
          (fun i => if i = 0 then ⟨.success, 9⟩ else ⟨.success, 7⟩) =
        ⟨2, (Int.tdiv (7 + 1) 2).toNat, max 3 ((9 : Int) + 1).toNat,
         .ret (.Success ())⟩) ∧
    ((9 : Int) + 2 ≤ ((3 : Nat) : Int) * 2 →
      Statement.col_name 3
          (fun i => if i = 0 then ⟨.success, 9⟩ else ⟨.success, 7⟩) =
        ⟨1, (Int.tdiv ((9 : Int) + 1) 2).toNat, 3, .ret (.Success ())⟩) :=
  col_name_bounded_calls_trim_growth 3 9 7 (by decide) (by decide)
    (by decide) (by decide) (by decide)

/-- C9: the metadata-query executions wrap the statement as a cursor
unconditionally whenever the underlying `columns`/`tables` driver call
succeeds — in a release build (`dbg = false`) the result-column count is
not even queried; in a debug build (`dbg = true`) a zero count trips the
`debug_assert`, an uncontrolled panic rather than a recoverable error. -/
theorem metadata_query_asserts_result_set (stmt : Nat) (n : Int) :
    execute_columns false stmt .success .success n =
      ([Call.columnsCall], .ok (some ⟨stmt⟩)) ∧
    execute_tables false stmt .success .success n =
      ([Call.tablesCall], .ok (some ⟨stmt⟩)) ∧
    (execute_columns true stmt .success .success 0).2 =
      .panicked "debug assertion failed" ∧
    (execute_tables true stmt .success .success 0).2 =
      .panicked "debug assertion failed" :=
  ⟨rfl, rfl, rfl, rfl⟩

